import Mathlib

/-!
Shallow embedding of the container deployment orchestrator of this
repository (`example.py`, class `ACRContainerDeployer`; the near-duplicate
`deployers/acr_container_deployer.py` shares the same mount/transfer
logic).  Pure parts (output formatting, path splitting, template
rendering, command construction) become Lean functions; the effectful
orchestration (`scp_to_container_master`, `mount_shares`, `deploy`)
becomes a function from an environment of collaborator answers to a trace
of observable events plus an outcome (normal return, `sys.exit` code, or
a raised exception).
-/

set_option autoImplicit false

namespace ContainerDeploy

/-! ### UTF-8 decoding — Python `bytes.decode('utf-8')`, strict mode -/

/-- A UTF-8 continuation byte is in `0x80..0xBF`. -/
def isCont (b : Nat) : Bool := decide (0x80 ≤ b) && decide (b < 0xC0)

/-- Decode one Unicode scalar value from the front of a byte list,
returning the codepoint and the remaining bytes; `none` on malformed
input (invalid lead byte, truncated sequence, overlong form, surrogate,
or codepoint above `U+10FFFF`), exactly the inputs Python's strict
decoder rejects. -/
def decodeOne : List Nat → Option (Nat × List Nat)
  | [] => none
  | b :: rest =>
    if b < 0x80 then some (b, rest)
    else if b < 0xC2 then none
    else if b < 0xE0 then
      match rest with
      | b1 :: rest2 =>
        if isCont b1 then some ((b - 0xC0) * 0x40 + (b1 - 0x80), rest2) else none
      | [] => none
    else if b < 0xF0 then
      match rest with
      | b1 :: b2 :: rest3 =>
        if (if b = 0xE0 then decide (0xA0 ≤ b1) && decide (b1 < 0xC0)
            else if b = 0xED then decide (0x80 ≤ b1) && decide (b1 < 0xA0)
            else isCont b1) && isCont b2 then
          some ((b - 0xE0) * 0x1000 + (b1 - 0x80) * 0x40 + (b2 - 0x80), rest3)
        else none
      | _ => none
    else if b < 0xF5 then
      match rest with
      | b1 :: b2 :: b3 :: rest4 =>
        if (if b = 0xF0 then decide (0x90 ≤ b1) && decide (b1 < 0xC0)
            else if b = 0xF4 then decide (0x80 ≤ b1) && decide (b1 < 0x90)
            else isCont b1) && isCont b2 && isCont b3 then
          some ((b - 0xF0) * 0x40000 + (b1 - 0x80) * 0x1000 + (b2 - 0x80) * 0x40
                  + (b3 - 0x80), rest4)
        else none
      | _ => none
    else none

/-- Fuel-driven decoding loop; `decodeOne` consumes at least one byte per
step, so fuel `l.length` always suffices. -/
def utf8DecodeAux : Nat → List Nat → Option (List Nat)
  | _, [] => some []
  | 0, _ :: _ => none
  | fuel + 1, l =>
    match decodeOne l with
    | some (c, rest) =>
      match utf8DecodeAux fuel rest with
      | some cs => some (c :: cs)
      | none => none
    | none => none

/-- Python `bytes.decode('utf-8')`: the codepoints of `l`, or `none` when
the decode raises `UnicodeDecodeError`. -/
def utf8Decode (l : List Nat) : Option (List Nat) := utf8DecodeAux l.length l

/-! ### The output formatter — `_format_proc_output` -/

/-- Python `str.split('\n')` on a codepoint list (10 is `'\n'`). -/
def splitLines : List Nat → List (List Nat)
  | [] => [[]]
  | c :: rest =>
    if c = 10 then [] :: splitLines rest
    else
      match splitLines rest with
      | [] => [[c]]
      | l :: ls => (c :: l) :: ls

/-- `'    {}'.format(line)`: four spaces of indentation. -/
def indentLine (l : List Nat) : List Nat := 32 :: 32 :: 32 :: 32 :: l

/-- Python `'\n'.join(lines)` on codepoint lists. -/
def joinNL : List (List Nat) → List Nat
  | [] => []
  | [p] => p
  | p :: q :: ps => p ++ 10 :: joinNL (q :: ps)

/-- What one call of `_format_proc_output` does: nothing, raise, or print
a block of text. -/
inductive FormatResult where
  | noOutput
  | raises
  | printed (text : List Nat)
deriving DecidableEq

/-- `ACRContainerDeployer._format_proc_output(header, output)`: empty
`output` prints nothing; otherwise the bytes are UTF-8-decoded (which can
raise), split on `'\n'`, each line indented by four spaces, and printed
as `print(header, joined, sep='\n', end='\n\n')`. -/
def formatProcOutput (header : List Nat) (output : List Nat) : FormatResult :=
  if output = [] then .noOutput
  else
    match utf8Decode output with
    | none => .raises
    | some d =>
      .printed (header ++ 10 :: joinNL ((splitLines d).map indentLine) ++ [10, 10])

/-- The lines a terminal displays for a printed text: split on `'\n'`,
dropping the empty fragment after a final newline. -/
def displayedLines (s : List Nat) : List (List Nat) :=
  if s.getLast? = some 10 then (splitLines s).dropLast else splitLines s

/-! ### Strings, paths, encoders -/

/-- The codepoints of a string (for ASCII text, its bytes). -/
def strBytes (s : String) : List Nat := s.data.map Char.toNat

/-- All characters below `0x80`. -/
def allAscii (s : String) : Bool := s.data.all fun c => c.toNat < 128

/-- Python `str.encode('ascii')`: the bytes, or `none` when the encode
raises `UnicodeEncodeError`. -/
def encodeAscii (s : String) : Option (List Nat) :=
  if allAscii s then some (strBytes s) else none

/-- Python `str.split(sep)` for a one-character separator. -/
def pySplit (sep : Char) : List Char → List (List Char)
  | [] => [[]]
  | c :: rest =>
    if c = sep then [] :: pySplit sep rest
    else
      match pySplit sep rest with
      | [] => [[c]]
      | p :: ps => (c :: p) :: ps

/-- `os.path.basename` on POSIX: the suffix after the last `'/'`,
i.e. the last fragment of `split('/')`. -/
def basename (p : String) : String := String.mk ((pySplit '/' p.data).getLastD [])

/-- `self.docker_image.split('/')[-1]` in `deploy`. -/
def lastSlashSegment (s : String) : String :=
  String.mk ((pySplit '/' s.data).getLastD [])

/-! ### Template rendering — `cifsMount_template.read().format(...)` -/

/-- A parsed `str.format` template: literal runs and replacement fields. -/
inductive TemplatePart where
  | lit (s : String)
  | field (name : String)
deriving DecidableEq

/-- `template.format(storageacct=..., sharename=..., username=...,
password=...)`: substitute the four keyword fields; a field with any
other name raises `KeyError` (Python's `TemplateError` for `format`). -/
def renderTemplate (tpl : List TemplatePart)
    (storageacct sharename username password : String) : Option String :=
  match tpl with
  | [] => some ""
  | .lit s :: rest =>
    match renderTemplate rest storageacct sharename username password with
    | some r => some (s ++ r)
    | none => none
  | .field n :: rest =>
    let v :=
      if n = "storageacct" then some storageacct
      else if n = "sharename" then some sharename
      else if n = "username" then some username
      else if n = "password" then some password
      else none
    match v with
    | none => none
    | some value =>
      match renderTemplate rest storageacct sharename username password with
      | some r => some (value ++ r)
      | none => none

/-- Replace each `'\n'` of `s` by `nl` (Python text-mode newline
translation on write). -/
def translateNL (nl : String) (s : String) : String :=
  String.mk (s.data.foldr (fun c acc => if c = '\n' then nl.data ++ acc else c :: acc) [])

/-- Content actually written by `io.open(..., 'w', newline=mode)`:
`none` (the default) translates `'\n'` to the platform separator;
`some ""` and `some "\n"` write verbatim; other modes translate to that
string.  The source opens `cifsMount.sh` with `newline='\n'`. -/
def writeTextFile (mode : Option String) (platformNL : String) (s : String) : String :=
  match mode with
  | none => translateNL platformNL s
  | some m => if m = "" ∨ m = "\n" then s else translateNL m s

/-! ### Observable events and outcomes of one deployment run -/

/-- One observable action of the orchestrator. -/
inductive Event where
  | printLine (s : String)
  | printTraceback
  | scpExec (localPath dest : String)
  | fileWrite (name content : String)
  | sessionOpen
  | sessionWrite (bytes : List Nat)
  | sessionCommunicate (input : List Nat)
  | sessionClosed
  | setupImage (image registryName : String)
  | launch (image : String) (withRegistryCreds : Bool)
  | printBlock (text : List Nat)
deriving DecidableEq

/-- How a run ends: normal return, `sys.exit(code)`, or an exception. -/
inductive Outcome where
  | ok
  | exited (code : Nat)
  | raised (err : String)
deriving DecidableEq

/-- A run: the trace of events so far and how it ended. -/
abbrev Run := List Event × Outcome

/-- Sequencing: continue with `k` only when the first part returned
normally (exits and exceptions short-circuit the rest of the function). -/
def andThen (r : Run) (k : Unit → Run) : Run :=
  match r with
  | (es, .ok) => (es ++ (k ()).1, (k ()).2)
  | (es, o) => (es, o)

/-- The collaborator answers and external conditions one deployment run
sees: resolved master address, key path, storage/registry identity, the
parsed template, the exit status of each of the three scp subprocesses,
and the transcript the session yields on close. -/
structure Env where
  address : String
  keyPath : String
  storageAcctName : String
  defaultShare : String
  registryDefaultName : String
  storageKey : String
  dockerImage : String
  platformNL : String
  template : List TemplatePart
  scp1Ok : Bool
  scp2Ok : Bool
  scp3Ok : Bool
  sessionOut : List Nat
  sessionErr : List Nat
  repoTag : String → String

/-- `'{}:./{}'.format(address, remote_path)`. -/
def scpDest (address name : String) : String := address ++ ":./" ++ name

/-- `ACRContainerDeployer.scp_to_container_master(local_path, remote_path)`:
run `scp local_path address:./remote_path`; on a non-zero exit print the
traceback, a diagnostic line, three remediation lines ending in the exact
`ssh <address>` command, and `sys.exit(1)`. -/
def scp_to_container_master (address : String) (ok : Bool)
    (localPath remotePath : String) : Run :=
  if ok then ([.scpExec localPath (scpDest address remotePath)], .ok)
  else
    ([.scpExec localPath (scpDest address remotePath),
      .printTraceback,
      .printLine "It looks like an scp command failed.",
      .printLine "Make sure you can ssh into the server without prompts.",
      .printLine "Please run the following command to try it:",
      .printLine ("ssh " ++ address)],
     .exited 1)

/-- `'chmod 600 {}\n'.format(key_file)`. -/
def chmodCmd (keyFile : String) : String := "chmod 600 " ++ keyFile ++ "\n"

/-- The literal bytes `b'eval ssh-agent -s\n'`. -/
def evalAgentCmd : String := "eval ssh-agent -s\n"

/-- `'ssh-add {}\n'.format(key_file)`. -/
def sshAddCmd (keyFile : String) : String := "ssh-add " ++ keyFile ++ "\n"

/-- `'sh mountShares.sh ~/{}\n'.format(key_file)`. -/
def mountSharesCmd (keyFile : String) : String :=
  "sh mountShares.sh ~/" ++ keyFile ++ "\n"

/-- Body of `with self.container_service.cluster_ssh() as proc:` — the
four `proc.stdin.write(....encode('ascii'))` calls, the progress print
before the fourth write, and `proc.communicate(input=b'exit\n')`.  A
failing ASCII encode raises before that write; the context manager still
closes the session on the way out. -/
def sessionBody (keyFile : String) : Run :=
  match encodeAscii (chmodCmd keyFile) with
  | none => ([.sessionClosed], .raised "UnicodeEncodeError")
  | some c1 =>
    match encodeAscii (sshAddCmd keyFile) with
    | none =>
      ([.sessionWrite c1, .sessionWrite (strBytes evalAgentCmd), .sessionClosed],
       .raised "UnicodeEncodeError")
    | some c3 =>
      match encodeAscii (mountSharesCmd keyFile) with
      | none =>
        ([.sessionWrite c1, .sessionWrite (strBytes evalAgentCmd), .sessionWrite c3,
          .printLine "Running mountShares on remote master. Cmd:",
          .printLine (mountSharesCmd keyFile),
          .sessionClosed],
         .raised "UnicodeEncodeError")
      | some c4 =>
        ([.sessionWrite c1, .sessionWrite (strBytes evalAgentCmd), .sessionWrite c3,
          .printLine "Running mountShares on remote master. Cmd:",
          .printLine (mountSharesCmd keyFile),
          .sessionWrite c4,
          .sessionCommunicate (strBytes "exit\n"),
          .sessionClosed],
         .ok)

/-- Emit the formatter's result into the trace: a raised
`UnicodeDecodeError` propagates. -/
def emitFormat (res : FormatResult) : Run :=
  match res with
  | .noOutput => ([], .ok)
  | .raises => ([], .raised "UnicodeDecodeError")
  | .printed s => ([.printBlock s], .ok)

/-- `'Stdout:'` as codepoints. -/
def stdoutHeader : List Nat := strBytes "Stdout:"

/-- `'Stderr:'` as codepoints. -/
def stderrHeader : List Nat := strBytes "Stderr:"

/-- The two reporting calls at the end of `mount_shares`:
`self._format_proc_output('Stdout:', out)` then `('Stderr:', err)`. -/
def reportTail (env : Env) : Run :=
  andThen (emitFormat (formatProcOutput stdoutHeader env.sessionOut)) (fun _ =>
    emitFormat (formatProcOutput stderrHeader env.sessionErr))

/-- `ACRContainerDeployer.mount_shares`: announce, compute the key
basename, render the template into `cifsMount.sh` (opened with
`newline='\n'`), copy the two scripts and the key to the master, run the
four session commands, then format stdout and stderr. -/
def mount_shares (env : Env) : Run :=
  andThen ([.printLine "Mounting file share on all machines in cluster..."], .ok)
    (fun _ =>
      match renderTemplate env.template env.storageAcctName env.defaultShare
          env.registryDefaultName env.storageKey with
      | none => ([], .raised "KeyError")
      | some rendered =>
        andThen ([.fileWrite "cifsMount.sh"
            (writeTextFile (some "\n") env.platformNL rendered)], .ok) (fun _ =>
        andThen (scp_to_container_master env.address env.scp1Ok "cifsMount.sh" "")
          (fun _ =>
        andThen (scp_to_container_master env.address env.scp2Ok "mountShares.sh" "")
          (fun _ =>
        andThen (scp_to_container_master env.address env.scp3Ok env.keyPath
            (basename env.keyPath)) (fun _ =>
        andThen ([.sessionOpen], .ok) (fun _ =>
        andThen (sessionBody (basename env.keyPath)) (fun _ =>
        reportTail env)))))))

/-- `ACRContainerDeployer.deploy`: derive the registry-local image name,
stage the image, mount the shares, then launch from the registry-tagged
reference together with the registry helper (the credentials). -/
def deploy (env : Env) : Run :=
  andThen ([.setupImage env.dockerImage (lastSlashSegment env.dockerImage)], .ok)
    (fun _ =>
    andThen (mount_shares env) (fun _ =>
    ([.launch (env.repoTag (lastSlashSegment env.dockerImage)) true], .ok)))

/-! ### Trace projections -/

/-- The byte strings written to the session's stdin, in order. -/
def writesOf (tr : List Event) : List (List Nat) :=
  tr.filterMap fun e => match e with | .sessionWrite b => some b | _ => none

/-- The inputs passed to `communicate`, in order. -/
def commsOf (tr : List Event) : List (List Nat) :=
  tr.filterMap fun e => match e with | .sessionCommunicate b => some b | _ => none

/-- The `(local, destination)` pairs of the scp invocations, in order. -/
def scpsOf (tr : List Event) : List (String × String) :=
  tr.filterMap fun e => match e with | .scpExec l d => some (l, d) | _ => none

/-- The `(image, registryName)` pairs passed to `setup_image`, in order. -/
def setupsOf (tr : List Event) : List (String × String) :=
  tr.filterMap fun e => match e with | .setupImage i n => some (i, n) | _ => none

/-- The `(name, content)` pairs of local file writes, in order. -/
def filesOf (tr : List Event) : List (String × String) :=
  tr.filterMap fun e => match e with | .fileWrite n c => some (n, c) | _ => none

/-! ### Lemmas about `splitLines` and `joinNL` -/

theorem splitLines_ne_nil (l : List Nat) : splitLines l ≠ [] := by
  induction l with
  | nil => simp [splitLines]
  | cons c rest ih =>
    simp only [splitLines]
    split
    · simp
    · split
      · simp
      · simp

theorem not_mem_of_mem_splitLines :
    ∀ {l p : List Nat}, p ∈ splitLines l → (10 : Nat) ∉ p := by
  intro l
  induction l with
  | nil =>
    intro p hp
    simp [splitLines] at hp
    simp [hp]
  | cons c rest ih =>
    intro p hp
    by_cases hc : c = 10
    · rw [splitLines, if_pos hc] at hp
      rcases List.mem_cons.mp hp with h | h
      · simp [h]
      · exact ih h
    · rw [splitLines, if_neg hc] at hp
      cases hsr : splitLines rest with
      | nil => exact absurd hsr (splitLines_ne_nil rest)
      | cons q qs =>
        rw [hsr] at hp
        rcases List.mem_cons.mp hp with h | h
        · subst h
          intro hmem
          rcases List.mem_cons.mp hmem with h10 | h10
          · exact hc h10.symm
          · exact ih (hsr ▸ List.mem_cons_self q qs) h10
        · exact ih (hsr ▸ List.mem_cons.mpr (Or.inr h))

theorem splitLines_append (x y : List Nat) :
    splitLines (x ++ 10 :: y) = splitLines x ++ splitLines y := by
  induction x with
  | nil => simp [splitLines]
  | cons c rest ih =>
    by_cases hc : c = 10
    · subst hc
      show [] :: splitLines (rest ++ 10 :: y) = ([] :: splitLines rest) ++ splitLines y
      rw [ih]
      rfl
    · show splitLines (c :: (rest ++ 10 :: y)) = splitLines (c :: rest) ++ splitLines y
      rw [splitLines, splitLines, if_neg hc, if_neg hc, ih]
      cases hsr : splitLines rest with
      | nil => exact absurd hsr (splitLines_ne_nil rest)
      | cons q qs => rfl

theorem splitLines_of_not_mem : ∀ {l : List Nat}, (10 : Nat) ∉ l → splitLines l = [l] := by
  intro l
  induction l with
  | nil => intro _; rfl
  | cons c rest ih =>
    intro h
    have hc : c ≠ 10 := fun hc => h (hc ▸ List.mem_cons_self c rest)
    have hrest : (10 : Nat) ∉ rest := fun hr => h (List.mem_cons.mpr (Or.inr hr))
    rw [splitLines, if_neg hc, ih hrest]

theorem splitLines_joinNL :
    ∀ (ps : List (List Nat)), ps ≠ [] → (∀ p ∈ ps, (10 : Nat) ∉ p) →
      splitLines (joinNL ps) = ps
  | [], h, _ => absurd rfl h
  | [p], _, hp => by
    show splitLines p = [p]
    exact splitLines_of_not_mem (hp p (by simp))
  | p :: q :: ps, _, hp => by
    show splitLines (p ++ 10 :: joinNL (q :: ps)) = p :: q :: ps
    rw [splitLines_append, splitLines_of_not_mem (hp p (by simp)),
      splitLines_joinNL (q :: ps) (by simp) (fun x hx => hp x (List.mem_cons.mpr (Or.inr hx)))]
    rfl

/-- C4: for every byte buffer, the formatter prints nothing when the
buffer is empty; otherwise (when the buffer decodes, so that its line
list is defined, and the header is a single line, as `'Stdout:'` and
`'Stderr:'` are) it prints a block whose displayed lines are exactly the
header line, then one four-space-indented line per line of the decoded
buffer, then a trailing blank line. -/
theorem C4_formatter_output_shape :
    (∀ header, formatProcOutput header [] = FormatResult.noOutput) ∧
    (∀ header output d, utf8Decode output = some d → output ≠ [] →
      (10 : Nat) ∉ header →
      ∃ s, formatProcOutput header output = FormatResult.printed s ∧
        displayedLines s = header :: (splitLines d).map indentLine ++ [[]] ∧
        ((splitLines d).map indentLine).length = (splitLines d).length) := by
  constructor
  · intro header
    simp [formatProcOutput]
  · intro header output d hdec hne hh
    refine ⟨header ++ 10 :: joinNL ((splitLines d).map indentLine) ++ [10, 10], ?_, ?_, ?_⟩
    · simp [formatProcOutput, hne, hdec]
    · have hpne : (splitLines d).map indentLine ≠ [] := by
        simp [List.map_eq_nil_iff, splitLines_ne_nil d]
      have hpnl : ∀ p ∈ (splitLines d).map indentLine, (10 : Nat) ∉ p := by
        intro p hp
        rcases List.mem_map.mp hp with ⟨q, hq, rfl⟩
        intro hmem
        simp only [indentLine, List.mem_cons] at hmem
        rcases hmem with h | h | h | h | h
        · exact absurd h (by decide)
        · exact absurd h (by decide)
        · exact absurd h (by decide)
        · exact absurd h (by decide)
        · exact not_mem_of_mem_splitLines hq h
      have hsplit : splitLines (header ++ 10 :: joinNL ((splitLines d).map indentLine)
            ++ [10, 10]) =
          (header :: (splitLines d).map indentLine ++ [[]]) ++ [[]] := by
        have h1 : header ++ 10 :: joinNL ((splitLines d).map indentLine) ++ [10, 10]
            = header ++ 10 :: (joinNL ((splitLines d).map indentLine) ++ 10 :: [10]) := by
          simp
        rw [h1, splitLines_append, splitLines_append, splitLines_of_not_mem hh,
          splitLines_joinNL _ hpne hpnl]
        simp [splitLines]
      have hlast : (header ++ 10 :: joinNL ((splitLines d).map indentLine)
            ++ [10, 10]).getLast? = some 10 := by
        have h2 : header ++ 10 :: joinNL ((splitLines d).map indentLine) ++ [10, 10]
            = (header ++ 10 :: joinNL ((splitLines d).map indentLine) ++ [10]) ++ [10] := by
          simp
        rw [h2, List.getLast?_append_of_ne_nil _ (by simp)]
        rfl
      rw [displayedLines, if_pos hlast, hsplit, List.dropLast_concat]
    · exact List.length_map _ _

/-- Witness for C4 at header `'Stdout:'` and buffer `b'a\nb'`. -/
theorem C4_witness :
    utf8Decode (strBytes "a\nb") = some [97, 10, 98] ∧
    ∃ s, formatProcOutput stdoutHeader (strBytes "a\nb") = FormatResult.printed s ∧
      displayedLines s = stdoutHeader :: (splitLines [97, 10, 98]).map indentLine ++ [[]] ∧
      ((splitLines [97, 10, 98]).map indentLine).length = (splitLines [97, 10, 98]).length :=
  ⟨by decide,
   C4_formatter_output_shape.2 stdoutHeader (strBytes "a\nb") [97, 10, 98]
     (by decide) (by decide) (by decide)⟩

/-- Counterexample to C5 as stated: on the byte buffer `b'\xff'`, which
is not valid UTF-8, `_format_proc_output` raises (Python
`bytes.decode('utf-8')` raises `UnicodeDecodeError`) instead of
completing. -/
theorem C5_counterexample :
    formatProcOutput stdoutHeader [255] = FormatResult.raises := by decide

/-- C5 (amended): the formatter never raises on an empty buffer or on a
buffer that is valid UTF-8; only a non-empty buffer that is not valid
UTF-8 makes it raise. -/
theorem C5_formatter_no_raise_amended :
    ∀ header output, (output = [] ∨ ∃ d, utf8Decode output = some d) →
      formatProcOutput header output ≠ FormatResult.raises := by
  intro header output h
  rcases h with h | ⟨d, hd⟩
  · subst h
    simp [formatProcOutput]
  · by_cases hne : output = []
    · simp [formatProcOutput, hne]
    · simp [formatProcOutput, hne, hd]

/-- Witness for the amended C5 at the buffer `b'ok\n'`. -/
theorem C5_witness :
    ((strBytes "ok\n" = ([] : List Nat)) ∨ ∃ d, utf8Decode (strBytes "ok\n") = some d) ∧
    formatProcOutput stdoutHeader (strBytes "ok\n") ≠ FormatResult.raises :=
  ⟨Or.inr ⟨[111, 107, 10], by decide⟩,
   C5_formatter_no_raise_amended stdoutHeader (strBytes "ok\n")
     (Or.inr ⟨[111, 107, 10], by decide⟩)⟩

/-! ### Lemmas about runs and traces -/

theorem andThen_fst (r : Run) (k : Unit → Run) :
    (andThen r k).1 = r.1 ++ (if r.2 = Outcome.ok then (k ()).1 else []) := by
  rcases r with ⟨es, o⟩
  cases o <;> simp [andThen]

theorem andThen_snd (r : Run) (k : Unit → Run) :
    (andThen r k).2 = (if r.2 = Outcome.ok then (k ()).2 else r.2) := by
  rcases r with ⟨es, o⟩
  cases o <;> simp [andThen]

theorem writesOf_append (a b : List Event) :
    writesOf (a ++ b) = writesOf a ++ writesOf b :=
  List.filterMap_append a b _

theorem commsOf_append (a b : List Event) :
    commsOf (a ++ b) = commsOf a ++ commsOf b :=
  List.filterMap_append a b _

theorem scpsOf_append (a b : List Event) :
    scpsOf (a ++ b) = scpsOf a ++ scpsOf b :=
  List.filterMap_append a b _

/-- Every event of the reporting tail is a `printBlock`. -/
theorem reportTail_events (env : Env) :
    ∀ e ∈ (reportTail env).1, ∃ t, e = Event.printBlock t := by
  rw [reportTail, andThen_fst]
  intro e he
  rcases List.mem_append.mp he with h | h
  · cases hres : formatProcOutput stdoutHeader env.sessionOut <;>
      rw [hres] at h <;> simp [emitFormat] at h
    exact ⟨_, h⟩
  · by_cases hc : (emitFormat (formatProcOutput stdoutHeader env.sessionOut)).2 = Outcome.ok
    · rw [if_pos hc] at h
      cases hres : formatProcOutput stderrHeader env.sessionErr <;>
        rw [hres] at h <;> simp [emitFormat] at h
      exact ⟨_, h⟩
    · rw [if_neg hc] at h
      simp at h

theorem writesOf_reportTail (env : Env) : writesOf (reportTail env).1 = [] := by
  rw [writesOf, List.filterMap_eq_nil_iff]
  intro e he
  rcases reportTail_events env e he with ⟨t, rfl⟩
  rfl

theorem commsOf_reportTail (env : Env) : commsOf (reportTail env).1 = [] := by
  rw [commsOf, List.filterMap_eq_nil_iff]
  intro e he
  rcases reportTail_events env e he with ⟨t, rfl⟩
  rfl

theorem scpsOf_reportTail (env : Env) : scpsOf (reportTail env).1 = [] := by
  rw [scpsOf, List.filterMap_eq_nil_iff]
  intro e he
  rcases reportTail_events env e he with ⟨t, rfl⟩
  rfl

/-! ### ASCII encoding lemmas -/

theorem allAscii_append (a b : String) :
    allAscii (a ++ b) = (allAscii a && allAscii b) := by
  simp [allAscii, String.data_append, List.all_append]

theorem encodeAscii_of_allAscii {s : String} (h : allAscii s = true) :
    encodeAscii s = some (strBytes s) := by
  simp [encodeAscii, h]

theorem sessionBody_of_ascii (kf : String) (h : allAscii kf = true) :
    sessionBody kf =
      ([.sessionWrite (strBytes (chmodCmd kf)),
        .sessionWrite (strBytes evalAgentCmd),
        .sessionWrite (strBytes (sshAddCmd kf)),
        .printLine "Running mountShares on remote master. Cmd:",
        .printLine (mountSharesCmd kf),
        .sessionWrite (strBytes (mountSharesCmd kf)),
        .sessionCommunicate (strBytes "exit\n"),
        .sessionClosed], .ok) := by
  have hc : allAscii (chmodCmd kf) = true := by
    rw [chmodCmd, allAscii_append, allAscii_append, h]
    decide
  have hs : allAscii (sshAddCmd kf) = true := by
    rw [sshAddCmd, allAscii_append, allAscii_append, h]
    decide
  have hm : allAscii (mountSharesCmd kf) = true := by
    rw [mountSharesCmd, allAscii_append, allAscii_append, h]
    decide
  rw [sessionBody, encodeAscii_of_allAscii hc, encodeAscii_of_allAscii hs,
    encodeAscii_of_allAscii hm]

theorem sessionBody_of_not_ascii (kf : String) (h : allAscii kf = false) :
    sessionBody kf = ([.sessionClosed], .raised "UnicodeEncodeError") := by
  have hc : allAscii (chmodCmd kf) = false := by
    rw [chmodCmd, allAscii_append, allAscii_append, h]
    decide
  rw [sessionBody]
  rw [show encodeAscii (chmodCmd kf) = none by simp [encodeAscii, hc]]

/-! ### Decomposition of `mount_shares` and `deploy` -/

theorem deploy_fst (env : Env) :
    (deploy env).1 = Event.setupImage env.dockerImage (lastSlashSegment env.dockerImage) ::
      ((mount_shares env).1 ++
        (if (mount_shares env).2 = Outcome.ok then
          [Event.launch (env.repoTag (lastSlashSegment env.dockerImage)) true] else [])) := by
  simp only [deploy, andThen_fst]
  simp

theorem deploy_snd (env : Env) :
    (deploy env).2 = (if (mount_shares env).2 = Outcome.ok then Outcome.ok
      else (mount_shares env).2) := by
  simp only [deploy, andThen_snd]
  simp

theorem mount_shares_success (env : Env) (r : String)
    (h1 : env.scp1Ok = true) (h2 : env.scp2Ok = true) (h3 : env.scp3Ok = true)
    (hr : renderTemplate env.template env.storageAcctName env.defaultShare
      env.registryDefaultName env.storageKey = some r)
    (hk : allAscii (basename env.keyPath) = true) :
    mount_shares env =
      ([.printLine "Mounting file share on all machines in cluster...",
        .fileWrite "cifsMount.sh" (writeTextFile (some "\n") env.platformNL r),
        .scpExec "cifsMount.sh" (scpDest env.address ""),
        .scpExec "mountShares.sh" (scpDest env.address ""),
        .scpExec env.keyPath (scpDest env.address (basename env.keyPath)),
        .sessionOpen,
        .sessionWrite (strBytes (chmodCmd (basename env.keyPath))),
        .sessionWrite (strBytes evalAgentCmd),
        .sessionWrite (strBytes (sshAddCmd (basename env.keyPath))),
        .printLine "Running mountShares on remote master. Cmd:",
        .printLine (mountSharesCmd (basename env.keyPath)),
        .sessionWrite (strBytes (mountSharesCmd (basename env.keyPath))),
        .sessionCommunicate (strBytes "exit\n"),
        .sessionClosed] ++ (reportTail env).1,
       (reportTail env).2) := by
  rw [mount_shares, hr]
  simp [andThen, h1, h2, h3, scp_to_container_master, sessionBody_of_ascii _ hk]

theorem mount_shares_nonascii (env : Env) (r : String)
    (h1 : env.scp1Ok = true) (h2 : env.scp2Ok = true) (h3 : env.scp3Ok = true)
    (hr : renderTemplate env.template env.storageAcctName env.defaultShare
      env.registryDefaultName env.storageKey = some r)
    (hk : allAscii (basename env.keyPath) = false) :
    mount_shares env =
      ([.printLine "Mounting file share on all machines in cluster...",
        .fileWrite "cifsMount.sh" (writeTextFile (some "\n") env.platformNL r),
        .scpExec "cifsMount.sh" (scpDest env.address ""),
        .scpExec "mountShares.sh" (scpDest env.address ""),
        .scpExec env.keyPath (scpDest env.address (basename env.keyPath)),
        .sessionOpen,
        .sessionClosed],
       .raised "UnicodeEncodeError") := by
  rw [mount_shares, hr]
  simp [andThen, h1, h2, h3, scp_to_container_master, sessionBody_of_not_ascii _ hk]

/-- The remediation block printed by a failing scp call. -/
theorem mount_shares_scp1_fail (env : Env) (r : String)
    (h1 : env.scp1Ok = false)
    (hr : renderTemplate env.template env.storageAcctName env.defaultShare
      env.registryDefaultName env.storageKey = some r) :
    mount_shares env =
      ([.printLine "Mounting file share on all machines in cluster...",
        .fileWrite "cifsMount.sh" (writeTextFile (some "\n") env.platformNL r),
        .scpExec "cifsMount.sh" (scpDest env.address ""),
        .printTraceback,
        .printLine "It looks like an scp command failed.",
        .printLine "Make sure you can ssh into the server without prompts.",
        .printLine "Please run the following command to try it:",
        .printLine ("ssh " ++ env.address)],
       .exited 1) := by
  rw [mount_shares, hr]
  simp [andThen, h1, scp_to_container_master]

theorem mount_shares_scp2_fail (env : Env) (r : String)
    (h1 : env.scp1Ok = true) (h2 : env.scp2Ok = false)
    (hr : renderTemplate env.template env.storageAcctName env.defaultShare
      env.registryDefaultName env.storageKey = some r) :
    mount_shares env =
      ([.printLine "Mounting file share on all machines in cluster...",
        .fileWrite "cifsMount.sh" (writeTextFile (some "\n") env.platformNL r),
        .scpExec "cifsMount.sh" (scpDest env.address ""),
        .scpExec "mountShares.sh" (scpDest env.address ""),
        .printTraceback,
        .printLine "It looks like an scp command failed.",
        .printLine "Make sure you can ssh into the server without prompts.",
        .printLine "Please run the following command to try it:",
        .printLine ("ssh " ++ env.address)],
       .exited 1) := by
  rw [mount_shares, hr]
  simp [andThen, h1, h2, scp_to_container_master]

theorem mount_shares_scp3_fail (env : Env) (r : String)
    (h1 : env.scp1Ok = true) (h2 : env.scp2Ok = true) (h3 : env.scp3Ok = false)
    (hr : renderTemplate env.template env.storageAcctName env.defaultShare
      env.registryDefaultName env.storageKey = some r) :
    mount_shares env =
      ([.printLine "Mounting file share on all machines in cluster...",
        .fileWrite "cifsMount.sh" (writeTextFile (some "\n") env.platformNL r),
        .scpExec "cifsMount.sh" (scpDest env.address ""),
        .scpExec "mountShares.sh" (scpDest env.address ""),
        .scpExec env.keyPath (scpDest env.address (basename env.keyPath)),
        .printTraceback,
        .printLine "It looks like an scp command failed.",
        .printLine "Make sure you can ssh into the server without prompts.",
        .printLine "Please run the following command to try it:",
        .printLine ("ssh " ++ env.address)],
       .exited 1) := by
  rw [mount_shares, hr]
  simp [andThen, h1, h2, h3, scp_to_container_master]

/-! ### Lemmas about `pySplit` and the image-name derivation -/

theorem pySplit_ne_nil (sep : Char) (l : List Char) : pySplit sep l ≠ [] := by
  induction l with
  | nil => simp [pySplit]
  | cons c rest ih =>
    simp only [pySplit]
    split
    · simp
    · split
      · simp
      · simp

theorem pySplit_append (sep : Char) (x y : List Char) :
    pySplit sep (x ++ sep :: y) = pySplit sep x ++ pySplit sep y := by
  induction x with
  | nil => simp [pySplit]
  | cons c rest ih =>
    by_cases hc : c = sep
    · subst hc
      show pySplit c (c :: (rest ++ c :: y)) = pySplit c (c :: rest) ++ pySplit c y
      rw [pySplit, pySplit, if_pos rfl, if_pos rfl, ih]
      rfl
    · show pySplit sep (c :: (rest ++ sep :: y)) = pySplit sep (c :: rest) ++ pySplit sep y
      rw [pySplit, pySplit, if_neg hc, if_neg hc, ih]
      cases hsr : pySplit sep rest with
      | nil => exact absurd hsr (pySplit_ne_nil sep rest)
      | cons q qs => rfl

theorem pySplit_of_not_mem : ∀ {sep : Char} {l : List Char}, sep ∉ l → pySplit sep l = [l] := by
  intro sep l
  induction l with
  | nil => intro _; rfl
  | cons c rest ih =>
    intro h
    have hc : c ≠ sep := fun hc => h (hc ▸ List.mem_cons_self c rest)
    have hrest : sep ∉ rest := fun hr => h (List.mem_cons.mpr (Or.inr hr))
    rw [pySplit, if_neg hc, ih hrest]

theorem lastSlashSegment_no_slash (s : String) (h : ('/' : Char) ∉ s.data) :
    lastSlashSegment s = s := by
  rw [lastSlashSegment, pySplit_of_not_mem h]
  rfl

theorem lastSlashSegment_append_sep (a b : String) (h : ('/' : Char) ∉ b.data) :
    lastSlashSegment (a ++ "/" ++ b) = b := by
  have hd : (a ++ "/" ++ b).data = a.data ++ '/' :: b.data := by
    rw [String.data_append, String.data_append]
    simp
  rw [lastSlashSegment, hd, pySplit_append, pySplit_of_not_mem h]
  simp

/-! ### Pointwise computation of trace projections -/

theorem writesOf_nil : writesOf [] = [] := rfl

theorem writesOf_cons (e : Event) (tr : List Event) :
    writesOf (e :: tr) =
      (match e with | .sessionWrite b => [b] | _ => []) ++ writesOf tr := by
  cases e <;> rfl

theorem commsOf_nil : commsOf [] = [] := rfl

theorem commsOf_cons (e : Event) (tr : List Event) :
    commsOf (e :: tr) =
      (match e with | .sessionCommunicate b => [b] | _ => []) ++ commsOf tr := by
  cases e <;> rfl

theorem scpsOf_nil : scpsOf [] = [] := rfl

theorem scpsOf_cons (e : Event) (tr : List Event) :
    scpsOf (e :: tr) =
      (match e with | .scpExec l d => [(l, d)] | _ => []) ++ scpsOf tr := by
  cases e <;> rfl

/-! ### Concrete environments used by the claim witnesses -/

/-- A small well-formed template using each of the four fields once. -/
def sampleTemplate : List TemplatePart :=
  [.field "storageacct", .lit "-", .field "sharename", .lit "-",
   .field "username", .lit "-", .field "password"]

/-- A fully healthy run environment. -/
def sampleEnv : Env :=
  { address := "azureuser@master.example.com"
    keyPath := "/home/me/.ssh/id_rsa"
    storageAcctName := "acct1"
    defaultShare := "share1"
    registryDefaultName := "user1"
    storageKey := "pw1"
    dockerImage := "mesosphere/simple-docker"
    platformNL := "\r\n"
    template := sampleTemplate
    scp1Ok := true
    scp2Ok := true
    scp3Ok := true
    sessionOut := []
    sessionErr := []
    repoTag := fun s => "containersample.azurecr.io/" ++ s }

/-- The healthy environment, but the second scp exits non-zero. -/
def sampleEnvScpFail : Env := { sampleEnv with scp2Ok := false }

/-- The healthy environment, but the key basename holds a non-ASCII char. -/
def sampleEnvBadKey : Env := { sampleEnv with keyPath := "/home/me/.ssh/clé" }

/-! ### The claims -/

/-- Claim C1: whenever one of the three scp copies exits non-zero (in a
run whose template rendered, so that a transfer is reached), the run
prints the failure traceback, then the diagnostic line, then the
three-line remediation message whose final line is the exact
`ssh <address>` command with the resolved address substituted; the
process terminates with exit status 1 immediately after those lines
(they are the end of the trace), and the trace never contains the
session-open step nor a container launch. -/
theorem C1_transfer_failure_fail_fast (env : Env) (r : String)
    (hr : renderTemplate env.template env.storageAcctName env.defaultShare
      env.registryDefaultName env.storageKey = some r)
    (hfail : env.scp1Ok = false ∨ env.scp2Ok = false ∨ env.scp3Ok = false) :
    (deploy env).2 = Outcome.exited 1 ∧
    (∃ pre, (deploy env).1 = pre ++
      [Event.printTraceback,
       Event.printLine "It looks like an scp command failed.",
       Event.printLine "Make sure you can ssh into the server without prompts.",
       Event.printLine "Please run the following command to try it:",
       Event.printLine ("ssh " ++ env.address)]) ∧
    Event.sessionOpen ∉ (deploy env).1 ∧
    (∀ img creds, Event.launch img creds ∉ (deploy env).1) := by
  cases h1 : env.scp1Ok with
  | false =>
    have hm := mount_shares_scp1_fail env r h1 hr
    refine ⟨?_, ⟨Event.setupImage env.dockerImage (lastSlashSegment env.dockerImage) ::
      [Event.printLine "Mounting file share on all machines in cluster...",
       Event.fileWrite "cifsMount.sh" (writeTextFile (some "\n") env.platformNL r),
       Event.scpExec "cifsMount.sh" (scpDest env.address "")], ?_⟩, ?_, ?_⟩
    · rw [deploy_snd, hm]
      simp
    · rw [deploy_fst, hm]
      simp
    · rw [deploy_fst, hm]
      simp
    · intro img creds
      rw [deploy_fst, hm]
      simp
  | true =>
    cases h2 : env.scp2Ok with
    | false =>
      have hm := mount_shares_scp2_fail env r h1 h2 hr
      refine ⟨?_, ⟨Event.setupImage env.dockerImage (lastSlashSegment env.dockerImage) ::
        [Event.printLine "Mounting file share on all machines in cluster...",
         Event.fileWrite "cifsMount.sh" (writeTextFile (some "\n") env.platformNL r),
         Event.scpExec "cifsMount.sh" (scpDest env.address ""),
         Event.scpExec "mountShares.sh" (scpDest env.address "")], ?_⟩, ?_, ?_⟩
      · rw [deploy_snd, hm]
        simp
      · rw [deploy_fst, hm]
        simp
      · rw [deploy_fst, hm]
        simp
      · intro img creds
        rw [deploy_fst, hm]
        simp
    | true =>
      cases h3 : env.scp3Ok with
      | false =>
        have hm := mount_shares_scp3_fail env r h1 h2 h3 hr
        refine ⟨?_, ⟨Event.setupImage env.dockerImage (lastSlashSegment env.dockerImage) ::
          [Event.printLine "Mounting file share on all machines in cluster...",
           Event.fileWrite "cifsMount.sh" (writeTextFile (some "\n") env.platformNL r),
           Event.scpExec "cifsMount.sh" (scpDest env.address ""),
           Event.scpExec "mountShares.sh" (scpDest env.address ""),
           Event.scpExec env.keyPath (scpDest env.address (basename env.keyPath))], ?_⟩,
          ?_, ?_⟩
        · rw [deploy_snd, hm]
          simp
        · rw [deploy_fst, hm]
          simp
        · rw [deploy_fst, hm]
          simp
        · intro img creds
          rw [deploy_fst, hm]
          simp
      | true =>
        rw [h1, h2, h3] at hfail
        simp at hfail

/-- Witness for C1: in the healthy environment with the second scp
failing, the run ends in exit status 1 with the remediation block and no
session open. -/
theorem C1_witness :
    (renderTemplate sampleEnvScpFail.template sampleEnvScpFail.storageAcctName
      sampleEnvScpFail.defaultShare sampleEnvScpFail.registryDefaultName
      sampleEnvScpFail.storageKey = some "acct1-share1-user1-pw1") ∧
    (sampleEnvScpFail.scp1Ok = false ∨ sampleEnvScpFail.scp2Ok = false ∨
      sampleEnvScpFail.scp3Ok = false) ∧
    ((deploy sampleEnvScpFail).2 = Outcome.exited 1 ∧
     (∃ pre, (deploy sampleEnvScpFail).1 = pre ++
       [Event.printTraceback,
        Event.printLine "It looks like an scp command failed.",
        Event.printLine "Make sure you can ssh into the server without prompts.",
        Event.printLine "Please run the following command to try it:",
        Event.printLine ("ssh " ++ sampleEnvScpFail.address)]) ∧
     Event.sessionOpen ∉ (deploy sampleEnvScpFail).1 ∧
     (∀ img creds, Event.launch img creds ∉ (deploy sampleEnvScpFail).1)) :=
  ⟨rfl, Or.inr (Or.inl rfl),
   C1_transfer_failure_fail_fast sampleEnvScpFail "acct1-share1-user1-pw1" rfl
     (Or.inr (Or.inl rfl))⟩

/-- Claim C2: in a successful run (transfers succeed, template renders,
ASCII key name) exactly four byte strings are written to the session's
input stream, in order: the chmod permission restriction for the copied
key, the agent start, the ssh-add key registration, and the mount-script
invocation; the close then passes the single `exit` line to
`communicate`, which blocks until the remote process terminates. -/
theorem C2_session_command_order (env : Env) (r : String)
    (h1 : env.scp1Ok = true) (h2 : env.scp2Ok = true) (h3 : env.scp3Ok = true)
    (hr : renderTemplate env.template env.storageAcctName env.defaultShare
      env.registryDefaultName env.storageKey = some r)
    (hk : allAscii (basename env.keyPath) = true) :
    writesOf (deploy env).1 =
      [strBytes (chmodCmd (basename env.keyPath)),
       strBytes evalAgentCmd,
       strBytes (sshAddCmd (basename env.keyPath)),
       strBytes (mountSharesCmd (basename env.keyPath))] ∧
    commsOf (deploy env).1 = [strBytes "exit\n"] := by
  have hm := mount_shares_success env r h1 h2 h3 hr hk
  constructor
  · rw [deploy_fst, hm]
    simp [writesOf_cons, writesOf_append, writesOf_reportTail, writesOf_nil,
      apply_ite writesOf]
  · rw [deploy_fst, hm]
    simp [commsOf_cons, commsOf_append, commsOf_reportTail, commsOf_nil,
      apply_ite commsOf]

/-- Witness for C2 in the healthy environment. -/
theorem C2_witness :
    (sampleEnv.scp1Ok = true) ∧ (sampleEnv.scp2Ok = true) ∧ (sampleEnv.scp3Ok = true) ∧
    (renderTemplate sampleEnv.template sampleEnv.storageAcctName sampleEnv.defaultShare
      sampleEnv.registryDefaultName sampleEnv.storageKey = some "acct1-share1-user1-pw1") ∧
    (allAscii (basename sampleEnv.keyPath) = true) ∧
    (writesOf (deploy sampleEnv).1 =
      [strBytes (chmodCmd (basename sampleEnv.keyPath)),
       strBytes evalAgentCmd,
       strBytes (sshAddCmd (basename sampleEnv.keyPath)),
       strBytes (mountSharesCmd (basename sampleEnv.keyPath))] ∧
     commsOf (deploy sampleEnv).1 = [strBytes "exit\n"]) :=
  ⟨rfl, rfl, rfl, rfl, by decide,
   C2_session_command_order sampleEnv "acct1-share1-user1-pw1" rfl rfl rfl rfl (by decide)⟩

/-- Claim C3: whenever a deployment run returns normally (and registry
staging always occurs in this deployer), its final action is the launch
call carrying the registry-tagged reference obtained from the registry
collaborator for the derived image name — not the bare image
reference — together with the registry credentials. -/
theorem C3_launch_uses_registry_tag (env : Env)
    (h : (deploy env).2 = Outcome.ok) :
    ∃ pre, (deploy env).1 =
      pre ++ [Event.launch (env.repoTag (lastSlashSegment env.dockerImage)) true] := by
  by_cases hm : (mount_shares env).2 = Outcome.ok
  · refine ⟨Event.setupImage env.dockerImage (lastSlashSegment env.dockerImage) ::
      (mount_shares env).1, ?_⟩
    rw [deploy_fst, if_pos hm]
    simp
  · rw [deploy_snd, if_neg hm] at h
    exact absurd h hm

/-- Witness for C3 in the healthy environment. -/
theorem C3_witness :
    ((deploy sampleEnv).2 = Outcome.ok) ∧
    ∃ pre, (deploy sampleEnv).1 =
      pre ++ [Event.launch (sampleEnv.repoTag (lastSlashSegment sampleEnv.dockerImage))
        true] :=
  ⟨rfl, C3_launch_uses_registry_tag sampleEnv rfl⟩

/-- Claim C6: in a run that reaches the session, exactly three transfer
calls precede the session-open event, in order: the rendered
mount-configuration script, the fixed companion mount script, and the
SSH key file; the two scripts are sent with an empty remote name and the
key under its basename, every destination being
`<address>:./<name>` (`scpDest`); no transfer happens after the session
opens. -/
theorem C6_three_transfers_before_session (env : Env) (r : String)
    (h1 : env.scp1Ok = true) (h2 : env.scp2Ok = true) (h3 : env.scp3Ok = true)
    (hr : renderTemplate env.template env.storageAcctName env.defaultShare
      env.registryDefaultName env.storageKey = some r)
    (hk : allAscii (basename env.keyPath) = true) :
    ∃ pre suf, (deploy env).1 = pre ++ Event.sessionOpen :: suf ∧
      scpsOf pre = [("cifsMount.sh", scpDest env.address ""),
        ("mountShares.sh", scpDest env.address ""),
        (env.keyPath, scpDest env.address (basename env.keyPath))] ∧
      scpsOf suf = [] := by
  have hm := mount_shares_success env r h1 h2 h3 hr hk
  refine ⟨[Event.setupImage env.dockerImage (lastSlashSegment env.dockerImage),
    Event.printLine "Mounting file share on all machines in cluster...",
    Event.fileWrite "cifsMount.sh" (writeTextFile (some "\n") env.platformNL r),
    Event.scpExec "cifsMount.sh" (scpDest env.address ""),
    Event.scpExec "mountShares.sh" (scpDest env.address ""),
    Event.scpExec env.keyPath (scpDest env.address (basename env.keyPath))],
    [Event.sessionWrite (strBytes (chmodCmd (basename env.keyPath))),
     Event.sessionWrite (strBytes evalAgentCmd),
     Event.sessionWrite (strBytes (sshAddCmd (basename env.keyPath))),
     Event.printLine "Running mountShares on remote master. Cmd:",
     Event.printLine (mountSharesCmd (basename env.keyPath)),
     Event.sessionWrite (strBytes (mountSharesCmd (basename env.keyPath))),
     Event.sessionCommunicate (strBytes "exit\n"),
     Event.sessionClosed] ++ (reportTail env).1 ++
      (if (reportTail env).2 = Outcome.ok then
        [Event.launch (env.repoTag (lastSlashSegment env.dockerImage)) true] else []),
    ?_, ?_, ?_⟩
  · rw [deploy_fst, hm]
    simp
  · simp [scpsOf_cons, scpsOf_nil]
  · simp [scpsOf_cons, scpsOf_append, scpsOf_reportTail, scpsOf_nil, apply_ite scpsOf]

/-- Witness for C6 in the healthy environment. -/
theorem C6_witness :
    (sampleEnv.scp1Ok = true) ∧ (sampleEnv.scp2Ok = true) ∧ (sampleEnv.scp3Ok = true) ∧
    (renderTemplate sampleEnv.template sampleEnv.storageAcctName sampleEnv.defaultShare
      sampleEnv.registryDefaultName sampleEnv.storageKey = some "acct1-share1-user1-pw1") ∧
    (allAscii (basename sampleEnv.keyPath) = true) ∧
    (∃ pre suf, (deploy sampleEnv).1 = pre ++ Event.sessionOpen :: suf ∧
      scpsOf pre = [("cifsMount.sh", scpDest sampleEnv.address ""),
        ("mountShares.sh", scpDest sampleEnv.address ""),
        (sampleEnv.keyPath, scpDest sampleEnv.address (basename sampleEnv.keyPath))] ∧
      scpsOf suf = []) :=
  ⟨rfl, rfl, rfl, rfl, by decide,
   C6_three_transfers_before_session sampleEnv "acct1-share1-user1-pw1" rfl rfl rfl rfl
     (by decide)⟩

/-- Claim C7: the registry-local image name passed to `setup_image` at
the start of `deploy` is the path segment of the docker image reference
after the last `/`; a reference without `/` is used whole. -/
theorem C7_registry_image_name :
    (∀ env : Env, ('/' : Char) ∉ env.dockerImage.data →
      (deploy env).1.head? =
        some (Event.setupImage env.dockerImage env.dockerImage)) ∧
    (∀ (env : Env) (a b : String), ('/' : Char) ∉ b.data →
      env.dockerImage = a ++ "/" ++ b →
      (deploy env).1.head? = some (Event.setupImage env.dockerImage b)) := by
  constructor
  · intro env h
    rw [deploy_fst]
    simp [lastSlashSegment_no_slash _ h]
  · intro env a b hb him
    rw [deploy_fst]
    simp [him, lastSlashSegment_append_sep a b hb]

/-- Witness for C7 at the image `mesosphere/simple-docker`. -/
theorem C7_witness :
    (('/' : Char) ∉ ("simple-docker" : String).data) ∧
    (sampleEnv.dockerImage = "mesosphere" ++ "/" ++ "simple-docker") ∧
    (deploy sampleEnv).1.head? =
      some (Event.setupImage sampleEnv.dockerImage "simple-docker") :=
  ⟨by decide, rfl,
   C7_registry_image_name.2 sampleEnv "mesosphere" "simple-docker" (by decide) rfl⟩

/-- Claim C8: rendering is deterministic — equal template and values give
the same output — and the script file is written with `newline='\n'`, so
the bytes on disk equal the rendered text verbatim for every host
platform newline convention (no `\n` is translated). -/
theorem C8_render_deterministic_newline (tpl : List TemplatePart)
    (sa sh un pw r : String)
    (hr : renderTemplate tpl sa sh un pw = some r) :
    (∀ tpl2 sa2 sh2 un2 pw2, tpl2 = tpl → sa2 = sa → sh2 = sh → un2 = un → pw2 = pw →
      renderTemplate tpl2 sa2 sh2 un2 pw2 = some r) ∧
    (∀ p q, writeTextFile (some "\n") p r = writeTextFile (some "\n") q r) ∧
    (∀ p, writeTextFile (some "\n") p r = r) := by
  refine ⟨?_, ?_, ?_⟩
  · intro tpl2 sa2 sh2 un2 pw2 he1 he2 he3 he4 he5
    subst he1; subst he2; subst he3; subst he4; subst he5
    exact hr
  · intro p q
    rfl
  · intro p
    rfl

/-- Witness for C8 at the sample template and values. -/
theorem C8_witness :
    (renderTemplate sampleTemplate "acct1" "share1" "user1" "pw1" =
      some "acct1-share1-user1-pw1") ∧
    ((∀ tpl2 sa2 sh2 un2 pw2, tpl2 = sampleTemplate → sa2 = "acct1" → sh2 = "share1" →
        un2 = "user1" → pw2 = "pw1" →
        renderTemplate tpl2 sa2 sh2 un2 pw2 = some "acct1-share1-user1-pw1") ∧
     (∀ p q, writeTextFile (some "\n") p "acct1-share1-user1-pw1" =
        writeTextFile (some "\n") q "acct1-share1-user1-pw1") ∧
     (∀ p, writeTextFile (some "\n") p "acct1-share1-user1-pw1" =
        "acct1-share1-user1-pw1")) :=
  ⟨rfl, C8_render_deterministic_newline sampleTemplate "acct1" "share1" "user1" "pw1"
    "acct1-share1-user1-pw1" rfl⟩

/-- Claim C9: every session command line is ASCII-encoded before the
write; with a key basename holding a character outside ASCII the first
encode raises `UnicodeEncodeError`, the run ends with that exception and
no command at all is written to the session. -/
theorem C9_nonascii_key_raises (env : Env) (r : String)
    (h1 : env.scp1Ok = true) (h2 : env.scp2Ok = true) (h3 : env.scp3Ok = true)
    (hr : renderTemplate env.template env.storageAcctName env.defaultShare
      env.registryDefaultName env.storageKey = some r)
    (hk : allAscii (basename env.keyPath) = false) :
    (deploy env).2 = Outcome.raised "UnicodeEncodeError" ∧
    writesOf (deploy env).1 = [] := by
  have hm := mount_shares_nonascii env r h1 h2 h3 hr hk
  constructor
  · rw [deploy_snd, hm]
    simp
  · rw [deploy_fst, hm]
    simp [writesOf_cons, writesOf_append, writesOf_nil, apply_ite writesOf]

/-- Witness for C9 with the key path `/home/me/.ssh/clé`. -/
theorem C9_witness :
    (sampleEnvBadKey.scp1Ok = true) ∧ (sampleEnvBadKey.scp2Ok = true) ∧
    (sampleEnvBadKey.scp3Ok = true) ∧
    (renderTemplate sampleEnvBadKey.template sampleEnvBadKey.storageAcctName
      sampleEnvBadKey.defaultShare sampleEnvBadKey.registryDefaultName
      sampleEnvBadKey.storageKey = some "acct1-share1-user1-pw1") ∧
    (allAscii (basename sampleEnvBadKey.keyPath) = false) ∧
    ((deploy sampleEnvBadKey).2 = Outcome.raised "UnicodeEncodeError" ∧
     writesOf (deploy sampleEnvBadKey).1 = []) :=
  ⟨rfl, rfl, rfl, rfl, by decide,
   C9_nonascii_key_raises sampleEnvBadKey "acct1-share1-user1-pw1" rfl rfl rfl rfl
     (by decide)⟩

/-- Claim C10: a single remote key name — the basename of the cluster
collaborator's key path, computed once — is the name used in all four
places: the remote rename of the key transfer, the chmod command, the
ssh-add command, and (prefixed with `~/`) the sole argument of the
mount-script invocation. -/
theorem C10_single_key_name (env : Env) (r : String)
    (h1 : env.scp1Ok = true) (h2 : env.scp2Ok = true) (h3 : env.scp3Ok = true)
    (hr : renderTemplate env.template env.storageAcctName env.defaultShare
      env.registryDefaultName env.storageKey = some r)
    (hk : allAscii (basename env.keyPath) = true) :
    ∃ k, k = basename env.keyPath ∧
      scpsOf (deploy env).1 =
        [("cifsMount.sh", scpDest env.address ""),
         ("mountShares.sh", scpDest env.address ""),
         (env.keyPath, scpDest env.address k)] ∧
      writesOf (deploy env).1 =
        [strBytes (chmodCmd k), strBytes evalAgentCmd, strBytes (sshAddCmd k),
         strBytes (mountSharesCmd k)] ∧
      chmodCmd k = "chmod 600 " ++ k ++ "\n" ∧
      sshAddCmd k = "ssh-add " ++ k ++ "\n" ∧
      mountSharesCmd k = "sh mountShares.sh ~/" ++ k ++ "\n" := by
  have hm := mount_shares_success env r h1 h2 h3 hr hk
  refine ⟨basename env.keyPath, rfl, ?_, ?_, rfl, rfl, rfl⟩
  · rw [deploy_fst, hm]
    simp [scpsOf_cons, scpsOf_append, scpsOf_reportTail, scpsOf_nil, apply_ite scpsOf]
  · rw [deploy_fst, hm]
    simp [writesOf_cons, writesOf_append, writesOf_reportTail, writesOf_nil,
      apply_ite writesOf]

/-- Witness for C10 in the healthy environment. -/
theorem C10_witness :
    (sampleEnv.scp1Ok = true) ∧ (sampleEnv.scp2Ok = true) ∧ (sampleEnv.scp3Ok = true) ∧
    (renderTemplate sampleEnv.template sampleEnv.storageAcctName sampleEnv.defaultShare
      sampleEnv.registryDefaultName sampleEnv.storageKey = some "acct1-share1-user1-pw1") ∧
    (allAscii (basename sampleEnv.keyPath) = true) ∧
    (∃ k, k = basename sampleEnv.keyPath ∧
      scpsOf (deploy sampleEnv).1 =
        [("cifsMount.sh", scpDest sampleEnv.address ""),
         ("mountShares.sh", scpDest sampleEnv.address ""),
         (sampleEnv.keyPath, scpDest sampleEnv.address k)] ∧
      writesOf (deploy sampleEnv).1 =
        [strBytes (chmodCmd k), strBytes evalAgentCmd, strBytes (sshAddCmd k),
         strBytes (mountSharesCmd k)] ∧
      chmodCmd k = "chmod 600 " ++ k ++ "\n" ∧
      sshAddCmd k = "ssh-add " ++ k ++ "\n" ∧
      mountSharesCmd k = "sh mountShares.sh ~/" ++ k ++ "\n") :=
  ⟨rfl, rfl, rfl, rfl, by decide,
   C10_single_key_name sampleEnv "acct1-share1-user1-pw1" rfl rfl rfl rfl (by decide)⟩

/-- Counterexample to C4 as stated: the non-empty byte buffer `b'\xc3'`
(a truncated UTF-8 sequence) makes the formatter raise, so it prints no
header line and no indented block at all. -/
theorem C4_counterexample :
    formatProcOutput stdoutHeader [195] = FormatResult.raises ∧
    ∀ s, formatProcOutput stdoutHeader [195] ≠ FormatResult.printed s := by
  refine ⟨by decide, fun s h => ?_⟩
  have hx : formatProcOutput stdoutHeader [195] = FormatResult.raises := by decide
  rw [hx] at h
  exact FormatResult.noConfusion h

end ContainerDeploy
